import Mathlib

/-!
Shallow embedding of the core of the `aiae_onboard_assistant` repository
(`src/chatbot.py`, with configuration from `src/config.py` and the fixed
prompts from `src/prompt.py`), together with theorems checking the
natural-language specification against it.

Modelling conventions:
* Python `dict`/`list` JSON values are modelled by the inductive `Json`;
  `json.dumps` is modelled by the injective serializer `Json.dumps`
  (indentation/whitespace of the real serializer is immaterial to every
  property below, only the encoded structure matters).
* The filesystem that the knowledge-store accessors read is an explicit
  state `FS`: for each data file, whether the path exists, whether it is
  readable, and the result of `json.load` on it (`none` models a
  `json.JSONDecodeError`).
* Python exceptions inside the accessors are modelled with `Except Unit`;
  the `try/except` blocks of the source become `match` on that result.
* Network interaction of `AzureOpenAIClient.get_chat_completion` is
  abstracted by an environment `Env` recording the outcome of the first
  completion call and of the follow-up call of one `send_message` turn
  (`none` models "client returned None after exhausting retries").
* The transcript file written by `save_conversation_history` is modelled
  as `Option (List Entry)` (`none` = file absent); timestamps and the
  session id, which no claim depends on, are abstracted away.
-/

namespace Onboard

/-- JSON values, as produced by `json.load` / consumed by `json.dumps`. -/
inductive Json where
  | null
  | bool (b : Bool)
  | num (n : Int)
  | str (s : String)
  | arr (elems : List Json)
  | obj (fields : List (String × Json))
deriving Repr, Inhabited

/-- Python `d.get(k)` on a JSON object: `none` when the key is absent or
the value is not an object.  JSON objects decoded by `json.loads` keep the
last binding for a duplicated key, hence `getLast?`. -/
def Json.get? : Json → String → Option Json
  | .obj fields, k => ((fields.filter (fun f => f.1 = k)).getLast?).map (fun f => f.2)
  | _, _ => none

mutual

/-- Injective serializer modelling `json.dumps` (module `json`); the exact
whitespace of the Python output is not reproduced. -/
def Json.dumps : Json → String
  | .null => "null"
  | .bool true => "true"
  | .bool false => "false"
  | .num n => toString n
  | .str s => "\"" ++ s ++ "\""
  | .arr xs => "[" ++ Json.dumpsList xs ++ "]"
  | .obj fs => "\x7b" ++ Json.dumpsFields fs ++ "\x7d"

/-- Serialize the elements of a JSON array. -/
def Json.dumpsList : List Json → String
  | [] => ""
  | [x] => Json.dumps x
  | x :: xs => Json.dumps x ++ ", " ++ Json.dumpsList xs

/-- Serialize the fields of a JSON object. -/
def Json.dumpsFields : List (String × Json) → String
  | [] => ""
  | [(k, v)] => "\"" ++ k ++ "\": " ++ Json.dumps v
  | (k, v) :: fs => "\"" ++ k ++ "\": " ++ Json.dumps v ++ ", " ++ Json.dumpsFields fs

end

mutual

/-- Boolean structural equality on JSON values. -/
def Json.beq : Json → Json → Bool
  | .null, .null => true
  | .bool a, .bool b => a == b
  | .num a, .num b => a == b
  | .str a, .str b => a == b
  | .arr xs, .arr ys => Json.beqList xs ys
  | .obj fs, .obj gs => Json.beqFields fs gs
  | _, _ => false

/-- Boolean equality on JSON arrays. -/
def Json.beqList : List Json → List Json → Bool
  | [], [] => true
  | x :: xs, y :: ys => Json.beq x y && Json.beqList xs ys
  | _, _ => false

/-- Boolean equality on JSON object fields. -/
def Json.beqFields : List (String × Json) → List (String × Json) → Bool
  | [], [] => true
  | (k, v) :: fs, (k', v') :: gs => k == k' && Json.beq v v' && Json.beqFields fs gs
  | _, _ => false

end

mutual

theorem Json.eq_of_beq : ∀ {a b : Json}, Json.beq a b = true → a = b
  | .null, .null, _ => rfl
  | .bool _, .bool _, h => by
      simp only [Json.beq, beq_iff_eq] at h; rw [h]
  | .num _, .num _, h => by
      simp only [Json.beq, beq_iff_eq] at h; rw [h]
  | .str _, .str _, h => by
      simp only [Json.beq, beq_iff_eq] at h; rw [h]
  | .arr _, .arr _, h => by
      simp only [Json.beq] at h; rw [Json.eqList_of_beq h]
  | .obj _, .obj _, h => by
      simp only [Json.beq] at h; rw [Json.eqFields_of_beq h]
  | .null, .bool _, h | .null, .num _, h | .null, .str _, h
  | .null, .arr _, h | .null, .obj _, h
  | .bool _, .null, h | .bool _, .num _, h | .bool _, .str _, h
  | .bool _, .arr _, h | .bool _, .obj _, h
  | .num _, .null, h | .num _, .bool _, h | .num _, .str _, h
  | .num _, .arr _, h | .num _, .obj _, h
  | .str _, .null, h | .str _, .bool _, h | .str _, .num _, h
  | .str _, .arr _, h | .str _, .obj _, h
  | .arr _, .null, h | .arr _, .bool _, h | .arr _, .num _, h
  | .arr _, .str _, h | .arr _, .obj _, h
  | .obj _, .null, h | .obj _, .bool _, h | .obj _, .num _, h
  | .obj _, .str _, h | .obj _, .arr _, h => by simp [Json.beq] at h

theorem Json.eqList_of_beq : ∀ {xs ys : List Json}, Json.beqList xs ys = true → xs = ys
  | [], [], _ => rfl
  | x :: xs, y :: ys, h => by
      simp only [Json.beqList, Bool.and_eq_true] at h
      rw [Json.eq_of_beq h.1, Json.eqList_of_beq h.2]
  | [], _ :: _, h | _ :: _, [], h => by simp [Json.beqList] at h

theorem Json.eqFields_of_beq :
    ∀ {fs gs : List (String × Json)}, Json.beqFields fs gs = true → fs = gs
  | [], [], _ => rfl
  | (k, v) :: fs, (k', v') :: gs, h => by
      simp only [Json.beqFields, Bool.and_eq_true, beq_iff_eq] at h
      rw [h.1.1, Json.eq_of_beq h.1.2, Json.eqFields_of_beq h.2]
  | [], _ :: _, h | _ :: _, [], h => by simp [Json.beqFields] at h

end

mutual

theorem Json.beq_refl : ∀ (a : Json), Json.beq a a = true
  | .null => rfl
  | .bool a => by simp [Json.beq]
  | .num a => by simp [Json.beq]
  | .str a => by simp [Json.beq]
  | .arr xs => Json.beqList_refl xs
  | .obj fs => Json.beqFields_refl fs

theorem Json.beqList_refl : ∀ (xs : List Json), Json.beqList xs xs = true
  | [] => rfl
  | x :: xs => by
      simp only [Json.beqList, Bool.and_eq_true]
      exact ⟨Json.beq_refl x, Json.beqList_refl xs⟩

theorem Json.beqFields_refl : ∀ (fs : List (String × Json)), Json.beqFields fs fs = true
  | [] => rfl
  | (k, v) :: fs => by
      simp only [Json.beqFields, Bool.and_eq_true, beq_self_eq_true]
      exact ⟨⟨trivial, Json.beq_refl v⟩, Json.beqFields_refl fs⟩

end

instance : DecidableEq Json := fun a b =>
  if h : Json.beq a b = true then .isTrue (Json.eq_of_beq h)
  else .isFalse (fun he => h (he ▸ Json.beq_refl a))

instance {ε α : Type} [DecidableEq ε] [DecidableEq α] : DecidableEq (Except ε α) := fun a b =>
  match a, b with
  | .ok x, .ok y => decidable_of_iff (x = y) (by simp)
  | .error x, .error y => decidable_of_iff (x = y) (by simp)
  | .ok _, .error _ => .isFalse (by simp)
  | .error _, .ok _ => .isFalse (by simp)

/-! ### Python string primitives used by `chatbot.py` -/

/-- Python `str.strip()`: drop leading and trailing whitespace. -/
def pyStrip (s : String) : String :=
  String.mk (((s.toList.dropWhile Char.isWhitespace).reverse.dropWhile Char.isWhitespace).reverse)

/-- Python `str.lower()` (ASCII case folding suffices for the data at hand). -/
def pyLower (s : String) : String :=
  String.mk (s.toList.map Char.toLower)

/-- Contiguous-sublist test on lists. -/
def listInfixOf (pat : List Char) : List Char → Bool
  | [] => pat.isEmpty
  | c :: t => pat.isPrefixOf (c :: t) || listInfixOf pat t

/-- Python `pat in s` substring test (true for the empty pattern, as in Python). -/
def strIn (pat s : String) : Bool :=
  listInfixOf pat.toList s.toList

/-- Python `s.startswith(pre)`. -/
def pyStartsWith (s pre : String) : Bool :=
  pre.toList.isPrefixOf s.toList

/-- Accumulator pass for `pySplitWs`: `acc` holds the current token,
reversed. -/
def splitWsAux : List Char → List Char → List String
  | [], acc => if acc.isEmpty then [] else [String.mk acc.reverse]
  | c :: cs, acc =>
      if c.isWhitespace then
        if acc.isEmpty then splitWsAux cs []
        else String.mk acc.reverse :: splitWsAux cs []
      else splitWsAux cs (c :: acc)

/-- Python `str.split()` with no argument: split on whitespace runs,
discarding empty tokens. -/
def pySplitWs (s : String) : List String :=
  splitWsAux s.toList []

/-- Python `s.count('\n')`. -/
def newlineCount (s : String) : Nat :=
  s.toList.count '\n'

/-! ### Filesystem state read by the Knowledge Store Accessor -/

/-- State of one on-disk JSON data file.  `parsed = none` models a file
whose content makes `json.load` raise `json.JSONDecodeError`. -/
structure FileState where
  pathExists : Bool
  readable : Bool
  parsed : Option Json
deriving Repr

/-- The three knowledge files of `Config` (`MEMBER_INFO_PATH`,
`PROCESSES_INFO_PATH`, `TECHSTACK_INFO_PATH`). -/
structure FS where
  member : FileState
  processes : FileState
  techstack : FileState
deriving Repr

/-- The missing-file error payload of `get_member_information`. -/
def member_missing_payload : Json :=
  .obj [("error", .str "Data temporarily unavailable"),
        ("message", .str "Member information is currently being updated. Please try again in a few minutes or contact IT support."),
        ("contact", .str "IT Support: it-support@company.com")]

/-- The permission error payload of `get_member_information` (used both
for the `os.access` check and the `PermissionError` handler). -/
def member_access_payload : Json :=
  .obj [("error", .str "Access denied"),
        ("message", .str "Unable to access member information. Please contact IT support."),
        ("contact", .str "IT Support: it-support@company.com")]

/-- The malformed-JSON error payload of `get_member_information`. -/
def member_format_payload : Json :=
  .obj [("error", .str "Data format error"),
        ("message", .str "Member information file has formatting issues. IT has been notified."),
        ("contact", .str "For immediate assistance: hr@company.com")]

/-- Embedding of `get_member_information` (`src/chatbot.py:68-133`).  The
returned value is the payload the Python code passes to `json.dumps`; the
`validate_json_structure` call only logs and is omitted.  The function is
total: every failure mode yields an error object, never an exception. -/
def get_member_information (fs : FS) : Json :=
  if !fs.member.pathExists then
    member_missing_payload
  else if !fs.member.readable then
    member_access_payload
  else
    match fs.member.parsed with
    | none => member_format_payload
    | some j => j

/-- Embedding of `get_process_information` (`src/chatbot.py:136-178`).
This accessor has no `os.access` check; an unreadable file raises
`PermissionError` at `open`, caught by the generic `except Exception`. -/
def get_process_information (fs : FS) : Json :=
  if !fs.processes.pathExists then
    .obj [("error", .str "Data temporarily unavailable"),
          ("message", .str "Process information is currently being updated. Please try again later."),
          ("alternative", .str "For urgent process questions, contact your manager or team lead.")]
  else if !fs.processes.readable then
    .obj [("error", .str "System error"),
          ("message", .str "Unable to load process information. Please contact your manager for workflow details."),
          ("contact", .str "Manager or Team Lead")]
  else
    match fs.processes.parsed with
    | none =>
        .obj [("error", .str "Data format error"),
              ("message", .str "Process information file has formatting issues. Please contact your team lead for process details."),
              ("contact", .str "Team Lead or Manager")]
    | some j => j

/-- Embedding of `get_techstack_information` (`src/chatbot.py:181-223`). -/
def get_techstack_information (fs : FS) : Json :=
  if !fs.techstack.pathExists then
    .obj [("error", .str "Data temporarily unavailable"),
          ("message", .str "Technology stack information is currently being updated."),
          ("alternative", .str "Please ask your team lead about the specific technologies used in your project.")]
  else if !fs.techstack.readable then
    .obj [("error", .str "System error"),
          ("message", .str "Unable to load technology information. Please contact your team for tech stack details."),
          ("contact", .str "Team Lead or Technical Manager")]
  else
    match fs.techstack.parsed with
    | none =>
        .obj [("error", .str "Data format error"),
              ("message", .str "Technology information file has formatting issues. Please ask your team about the tech stack."),
              ("contact", .str "Team Lead or Senior Developer")]
    | some j => j

/-! ### `get_user_project_assignment` (`src/chatbot.py:226-351`) -/

/-- Python iteration `for x in j`: arrays yield elements, strings yield
one-character strings, dicts yield their keys; other values raise
`TypeError` (modelled as `Except.error`). -/
def pyIter : Json → Except Unit (List Json)
  | .arr xs => .ok xs
  | .str s => .ok (s.toList.map (fun c => Json.str (String.mk [c])))
  | .obj fs => .ok (fs.map (fun f => Json.str f.1))
  | _ => .error ()

/-- Python `j.lower()` on a value expected to be a string; a non-string
raises `AttributeError` (modelled as `Except.error`). -/
def jstrLower : Json → Except Unit String
  | .str s => .ok (pyLower s)
  | _ => .error ()

/-- The `search_variations` list built by `get_user_project_assignment`
from the stripped user name: full lowercase name, first token (when the
name contains a space), and the first two tokens joined (when the name has
more than one token). -/
def search_variations (user_name : String) : List String :=
  [pyLower user_name,
   if strIn " " user_name then (pySplitWs (pyLower user_name)).headD (pyLower user_name)
   else pyLower user_name,
   if (pySplitWs user_name).length > 1 then
     String.intercalate " " ((pySplitWs (pyLower user_name)).take 2)
   else pyLower user_name]

/-- The `name_match` predicate of `get_user_project_assignment`: some
search variation is a substring of the member name, or a prefix of it, or
a substring of one of its whitespace tokens. -/
def name_match (variations : List String) (member_name : String) : Bool :=
  variations.any (fun v =>
    strIn v member_name || pyStartsWith member_name v ||
    (pySplitWs member_name).any (fun part => strIn v part))

/-- Python truthiness of an arbitrary value (`if x:`). -/
def pyTruthy : Json → Bool
  | .null => false
  | .bool b => b
  | .num n => n ≠ 0
  | .str s => s ≠ ""
  | .arr xs => !xs.isEmpty
  | .obj fs => !fs.isEmpty

/-- One member of one project: the body of the inner `for member in
project.get('members', [])` loop, up to appending the matched entry.
Returns whether the member is kept; non-dict members are skipped, a
non-string `name`/`department` value (or a truthy non-string
`user_department` argument) raises (`Except.error`).  `dept` is the raw
`user_department` argument, `Json.null` when not supplied. -/
def member_matches (variations : List String) (dept : Json) (member : Json) :
    Except Unit Bool :=
  match member with
  | .obj _ => do
      let mname ← jstrLower ((member.get? "name").getD (.str ""))
      if name_match variations mname then
        if pyTruthy dept then do
          let mdept ← jstrLower ((member.get? "department").getD (.str ""))
          let d ← jstrLower dept
          pure (strIn d mdept)
        else
          pure true
      else
        pure false
  | _ => pure false

/-- The project entry appended to `user_projects` for a matched member. -/
def project_entry (project member : Json) : Json :=
  .obj [("project_code", (project.get? "project_code").getD .null),
        ("project_name", (project.get? "project_name").getD .null),
        ("department", (project.get? "department").getD .null),
        ("status", (project.get? "status").getD .null),
        ("description", (project.get? "description").getD .null),
        ("member_info",
          .obj [("employee_id", (member.get? "employee_id").getD .null),
                ("name", (member.get? "name").getD .null),
                ("role", (member.get? "role").getD .null),
                ("email", (member.get? "email").getD .null),
                ("team", (member.get? "team").getD .null),
                ("manager", (member.get? "manager").getD .null),
                ("hire_date", (member.get? "hire_date").getD .null),
                ("status", (member.get? "status").getD .null),
                ("department", (member.get? "department").getD .null)])]

/-- The matched entries contributed by one project of the member file:
projects that are not dicts or lack a `members` key are skipped. -/
def project_matches (variations : List String) (dept : Json) (project : Json) :
    Except Unit (List Json) :=
  match project with
  | .obj _ =>
      if (project.get? "members").isSome then do
        let members ← pyIter ((project.get? "members").getD (.arr []))
        members.foldlM
          (fun acc m => do
            let keep ← member_matches variations dept m
            pure (if keep then acc ++ [project_entry project m] else acc))
          []
      else
        pure []
  | _ => pure []

/-- The full `user_projects` list accumulated over the member file. -/
def user_projects_for (data : Json) (variations : List String) (dept : Json) :
    Except Unit (List Json) := do
  let projects ← pyIter data
  projects.foldlM (fun acc p => do pure (acc ++ (← project_matches variations dept p))) []

/-- The fixed no-match payload of `get_user_project_assignment`, with its
four-element `suggestions` list. -/
def no_match_payload (user_name : String) : Json :=
  .obj [("user_found", .bool false),
        ("search_name", .str user_name),
        ("message", .str ("No project assignment found for: " ++ user_name)),
        ("suggestions",
          .arr [.str "Check if your name is spelled exactly as in company records",
                .str "Try using just your first name",
                .str "Contact HR if you're a very recent hire",
                .str "Verify with your hiring manager about project assignments"]),
        ("contacts", .obj [("hr", .str "hr@company.com"),
                           ("it_support", .str "it-support@company.com")])]

/-- The success payload of `get_user_project_assignment`. -/
def found_payload (user_name : String) (projects : List Json) : Json :=
  .obj [("user_found", .bool true),
        ("total_projects", .num projects.length),
        ("search_name", .str user_name),
        ("projects", .arr projects),
        ("message", .str ("Found " ++ toString projects.length ++
                          " project assignment(s) for " ++ user_name))]

/-- The payload for an empty/whitespace-only (or otherwise falsy)
`user_name` argument. -/
def invalid_name_payload : Json :=
  .obj [("user_found", .bool false),
        ("error", .str "Please provide a valid name to search for project assignments."),
        ("suggestion", .str "Enter your full name as it appears in company records.")]

/-- The payload produced by the generic `except Exception` handler of
`get_user_project_assignment`. -/
def lookup_syserr_payload : Json :=
  .obj [("user_found", .bool false),
        ("error", .str "System error occurred during lookup."),
        ("suggestion", .str "Please try again or contact support@company.com")]

/-- Embedding of `get_user_project_assignment` (`src/chatbot.py:226-351`).
The arguments are raw values (the function is invoked with
model-authored keyword arguments): a falsy `user_name` is rejected, a
truthy non-string one raises `AttributeError` at `.strip()`, which the
generic `except Exception` turns into the system-error payload.  Order of
checks follows the source: name validation, missing file, unreadable file
(`PermissionError` also lands in the generic handler), then
`json.JSONDecodeError`, then the search; a `TypeError`/`AttributeError`
raised while traversing malformed data lands in the generic handler too. -/
def get_user_project_assignment (fs : FS) (user_name : Json)
    (user_department : Json := .null) : Json :=
  if !pyTruthy user_name then
    invalid_name_payload
  else
    match user_name with
    | .str s =>
        if pyStrip s = "" then
          invalid_name_payload
        else
          let name := pyStrip s
          if !fs.member.pathExists then
            .obj [("user_found", .bool false),
                  ("error", .str "Member information is temporarily unavailable."),
                  ("suggestion", .str "Please contact HR at hr@company.com for your project assignment.")]
          else if !fs.member.readable then
            lookup_syserr_payload
          else
            match fs.member.parsed with
            | none =>
                .obj [("user_found", .bool false),
                      ("error", .str "Member information file has formatting issues."),
                      ("suggestion", .str "Please contact HR at hr@company.com for your project assignment.")]
            | some data =>
                match user_projects_for data (search_variations name) user_department with
                | .error _ => lookup_syserr_payload
                | .ok [] => no_match_payload name
                | .ok ps => found_payload name ps
    | _ => lookup_syserr_payload

/-! ### `AzureOpenAIClient` (`src/chatbot.py:354-465`) -/

/-- The environment-provided configuration values read by `Config`
(`src/config.py`): `none` models an unset variable, and Python truthiness
also treats the empty string as missing. -/
structure ClientConfig where
  endpoint : Option String
  apiKey : Option String
  apiVersion : Option String
  deploymentName : Option String
deriving Repr, DecidableEq

/-- Python truthiness of an optional string config value. -/
def cfgTruthy : Option String → Bool
  | none => false
  | some s => s ≠ ""

/-- The `required_configs` dict built in `AzureOpenAIClient.get_instance`,
in source order. -/
def required_configs (cfg : ClientConfig) : List (String × Option String) :=
  [("OPENAI_ENDPOINT", cfg.endpoint),
   ("OPENAI_API_KEY", cfg.apiKey),
   ("OPENAI_API_VERSION", cfg.apiVersion),
   ("OPENAI_DEPLOYMENT_NAME", cfg.deploymentName)]

/-- The `missing_configs` list: names of the required values that fail
Python truthiness. -/
def missing_configs (cfg : ClientConfig) : List String :=
  ((required_configs cfg).filter (fun kv => !cfgTruthy kv.2)).map (fun kv => kv.1)

/-- The connection/credentials object constructed by `AzureOpenAI(...)`. -/
structure AzureClient where
  azure_endpoint : String
  api_key : String
  api_version : String
deriving Repr, DecidableEq

/-- Embedding of `AzureOpenAIClient.get_instance`
(`src/chatbot.py:360-391`).  The singleton slot `_instance` is passed and
returned explicitly; a raised `APIConnectionError` is the `Except.error`
case, carrying the exception message. -/
def get_instance (cfg : ClientConfig) (inst : Option AzureClient) :
    Except String AzureClient × Option AzureClient :=
  match inst with
  | some c => (.ok c, some c)
  | none =>
      let missing := missing_configs cfg
      if missing.isEmpty then
        let c : AzureClient :=
          { azure_endpoint := cfg.endpoint.getD "",
            api_key := cfg.apiKey.getD "",
            api_version := cfg.apiVersion.getD "" }
        (.ok c, some c)
      else
        (.error ("Missing Azure OpenAI configuration: " ++ String.intercalate ", " missing),
         none)

/-! ### Conversation messages and completion responses -/

/-- Message roles of the conversation protocol. -/
inductive Role where
  | system
  | user
  | assistant
  | tool
deriving Repr, DecidableEq

/-- The `function` part of a tool call: name and raw JSON-encoded
arguments text. -/
structure ToolFunction where
  name : String
  arguments : String
deriving Repr, DecidableEq

/-- A provider-issued tool-call request. -/
structure ToolCall where
  id : String
  function : ToolFunction
deriving Repr, DecidableEq

/-- One entry of `conversation_history`: the dicts appended by
`OnboardingAssistant` (absent dict keys are the defaults `none`/`[]`). -/
structure Msg where
  role : Role
  content : Option String := none
  tool_calls : List ToolCall := []
  tool_call_id : Option String := none
deriving Repr, DecidableEq

/-- The message inside one choice of a completion response; `tool_calls`
being `None` or `[]` in Python are both the empty list here. -/
structure ChatMessage where
  content : Option String := none
  tool_calls : List ToolCall := []
deriving Repr, DecidableEq

/-- One choice of a completion response. -/
structure Choice where
  message : ChatMessage
deriving Repr, DecidableEq

/-- A completion response as consumed by the orchestrator. -/
structure Response where
  choices : List Choice
deriving Repr, DecidableEq

/-- The tool calls of `response.choices[0]`, empty when there are no
choices (Python truthiness of `response.choices and
response.choices[0].message.tool_calls`). -/
def first_tool_calls (r : Response) : List ToolCall :=
  match r.choices with
  | c :: _ => c.message.tool_calls
  | [] => []

/-- The content of `response.choices[0].message`, `none` when there are
no choices. -/
def first_content (r : Response) : Option String :=
  match r.choices with
  | c :: _ => c.message.content
  | [] => none

/-- Python truthiness of a message content value: `None` and `""` are falsy. -/
def contentTruthy : Option String → Bool
  | none => false
  | some s => s ≠ ""

/-! ### A model of `json.loads` for the tool-call arguments string

The dispatcher decodes the model-authored arguments text with
`json.loads`; we model the standard parser on the JSON fragment the tool
protocol uses (null/true/false, integers, strings without escape
sequences, arrays, objects).  Inputs outside this fragment fail to parse,
exactly like malformed JSON does in the source. -/

/-- The characters `json.loads` skips between tokens. -/
def skipWs : List Char → List Char
  | c :: cs => if c = ' ' || c = '\n' || c = '\t' || c = '\r' then skipWs cs else c :: cs
  | [] => []

/-- An opening brace character, `\x7b`. -/
def lbraceChar : Char := Char.ofNat 123

/-- A closing brace character, `\x7d`. -/
def rbraceChar : Char := Char.ofNat 125

/-- Parse a double-quoted string literal (escape-free fragment). -/
def parseStringLit : List Char → Option (String × List Char)
  | c :: cs =>
      if c = '"' then
        let body := cs.takeWhile (fun d => d ≠ '"' && d ≠ '\\')
        match cs.drop body.length with
        | d :: rest => if d = '"' then some (String.mk body, rest) else none
        | [] => none
      else none
  | [] => none

/-- Parse an integer literal; a fractional or exponent part is outside the
modelled fragment. -/
def parseIntLit (cs : List Char) : Option (Int × List Char) :=
  let signed := match cs with
    | c :: t => if c = '-' then (true, t) else (false, cs)
    | [] => (false, cs)
  let digs := signed.2.takeWhile Char.isDigit
  if digs.isEmpty then none
  else
    let rest := signed.2.drop digs.length
    let magnitude : Nat := digs.foldl (fun a c => a * 10 + (c.toNat - 48)) 0
    let value : Int := if signed.1 then -(magnitude : Int) else (magnitude : Int)
    match rest with
    | c :: _ => if c = '.' || c = 'e' || c = 'E' then none else some (value, rest)
    | [] => some (value, rest)

mutual

/-- Parse one JSON value; `fuel` bounds the nesting depth. -/
def parseValue : Nat → List Char → Option (Json × List Char)
  | 0, _ => none
  | fuel + 1, input =>
      match skipWs input with
      | [] => none
      | c :: rest =>
          if c = 'n' then
            if ['u', 'l', 'l'].isPrefixOf rest then some (.null, rest.drop 3) else none
          else if c = 't' then
            if ['r', 'u', 'e'].isPrefixOf rest then some (.bool true, rest.drop 3) else none
          else if c = 'f' then
            if ['a', 'l', 's', 'e'].isPrefixOf rest then some (.bool false, rest.drop 4) else none
          else if c = '"' then
            (parseStringLit (c :: rest)).map (fun p => (.str p.1, p.2))
          else if c = '[' then
            match skipWs rest with
            | ']' :: rest' => some (.arr [], rest')
            | r =>
                match parseElems fuel r with
                | some (xs, rest') => some (.arr xs, rest')
                | none => none
          else if c = lbraceChar then
            match skipWs rest with
            | d :: rest' =>
                if d = rbraceChar then some (.obj [], rest')
                else
                  match parseFields fuel (d :: rest') with
                  | some (fs, rest'') => some (.obj fs, rest'')
                  | none => none
            | [] => none
          else
            (parseIntLit (c :: rest)).map (fun p => (.num p.1, p.2))

/-- Parse the comma-separated elements of a non-empty array, up to and
including the closing bracket. -/
def parseElems : Nat → List Char → Option (List Json × List Char)
  | 0, _ => none
  | fuel + 1, input =>
      match parseValue fuel input with
      | none => none
      | some (j, r) =>
          match skipWs r with
          | ',' :: r' =>
              match parseElems fuel r' with
              | some (xs, r'') => some (j :: xs, r'')
              | none => none
          | ']' :: r' => some ([j], r')
          | _ => none

/-- Parse the fields of a non-empty object, up to and including the
closing brace. -/
def parseFields : Nat → List Char → Option (List (String × Json) × List Char)
  | 0, _ => none
  | fuel + 1, input =>
      match parseStringLit (skipWs input) with
      | none => none
      | some (k, r) =>
          match skipWs r with
          | ':' :: r' =>
              match parseValue fuel r' with
              | none => none
              | some (v, r'') =>
                  match skipWs r'' with
                  | ',' :: r3 =>
                      match parseFields fuel r3 with
                      | some (fs, r4) => some ((k, v) :: fs, r4)
                      | none => none
                  | d :: r3 => if d = rbraceChar then some ([(k, v)], r3) else none
                  | [] => none
          | _ => none

end

/-- Model of `json.loads` on the arguments fragment: parse one value and
require only whitespace to remain; anything else is a
`json.JSONDecodeError`, i.e. `none`. -/
def json_loads (s : String) : Option Json :=
  match parseValue (s.length + 1) s.toList with
  | some (j, rest) => if (skipWs rest).isEmpty then some j else none
  | none => none

/-! ### Tool Dispatcher (`OnboardingAssistant._handle_tool_calls`,
`src/chatbot.py:616-702`) -/

/-- The keys of `OnboardingAssistant.function_map`
(`src/chatbot.py:536-541`). -/
def function_map_names : List String :=
  ["get_member_information", "get_process_information",
   "get_techstack_information", "get_user_project_assignment"]

/-- Calling a registry function with no arguments, as the dispatcher does
for the three nullary accessors and as the fallback for a missing or
undecodable arguments string.  `get_user_project_assignment()` with no
arguments raises `TypeError` (its `user_name` parameter is required). -/
def invoke_no_args (fs : FS) (name : String) : Except Unit String :=
  if name = "get_member_information" then
    .ok (Json.dumps (get_member_information fs))
  else if name = "get_process_information" then
    .ok (Json.dumps (get_process_information fs))
  else if name = "get_techstack_information" then
    .ok (Json.dumps (get_techstack_information fs))
  else
    .error ()

/-- Python `fn(**args)` for `get_user_project_assignment`: `args` must be
a mapping whose keys are among the two parameter names with `user_name`
present, otherwise the call raises `TypeError` before the function body
runs. -/
def call_with_kwargs (fs : FS) (args : Json) : Except Unit String :=
  match args with
  | .obj fields =>
      if (fields.map (fun f => f.1)).all
           (fun k => k = "user_name" || k = "user_department") &&
         ((Json.obj fields).get? "user_name").isSome then
        .ok (Json.dumps (get_user_project_assignment fs
              (((Json.obj fields).get? "user_name").getD .null)
              (((Json.obj fields).get? "user_department").getD .null)))
      else
        .error ()
  | _ => .error ()

/-- The structured payload the dispatcher substitutes when a registry
function raises. -/
def exec_failed_payload (name : String) : Json :=
  .obj [("error", .str "Function execution failed"),
        ("message", .str "Unable to retrieve information at this time. Please try again later."),
        ("function", .str name)]

/-- The structured payload for a tool-call name outside the registry. -/
def unknown_function_payload (name : String) : Json :=
  .obj [("error", .str "Unknown function"),
        ("message", .str "The requested operation is not available."),
        ("function", .str name)]

/-- Execution of one tool call: the per-call body of the dispatcher loop
(`src/chatbot.py:646-687`), including argument decoding with its
no-argument fallback on `json.JSONDecodeError`, the per-call
`except Exception` recovery, and the unknown-name branch. -/
def execute_tool_call (fs : FS) (tc : ToolCall) : String :=
  let fname := tc.function.name
  if fname ∈ function_map_names then
    let attempt : Except Unit String :=
      if tc.function.arguments ≠ "" then
        match json_loads tc.function.arguments with
        | some args =>
            if fname = "get_user_project_assignment" then call_with_kwargs fs args
            else invoke_no_args fs fname
        | none => invoke_no_args fs fname
      else
        invoke_no_args fs fname
    match attempt with
    | .ok r => r
    | .error _ => Json.dumps (exec_failed_payload fname)
  else
    Json.dumps (unknown_function_payload fname)

/-- The `tool`-role message appended for one executed call. -/
def tool_message (fs : FS) (tc : ToolCall) : Msg :=
  { role := .tool,
    content := some (execute_tool_call fs tc),
    tool_call_id := some tc.id }

/-- The single assistant message carrying the full tool-call list, built
before any call is executed. -/
def assistant_tool_msg (content : Option String) (tcs : List ToolCall) : Msg :=
  { role := .assistant, content := content, tool_calls := tcs }

/-- Embedding of `OnboardingAssistant._handle_tool_calls`
(`src/chatbot.py:616-702`) as a function of the conversation history:
returns the new history and the joined result string.  Accessing
`response.choices[0]` of a choice-less response raises, which the outer
handler turns into an apology with the history untouched; a missing/empty
tool-call list returns the early-exit message. -/
def handle_tool_calls (fs : FS) (resp : Response) (hist : List Msg) : List Msg × String :=
  match resp.choices with
  | [] => (hist, "I encountered an error while looking up information. Please try your question again.")
  | choice :: _ =>
      match choice.message.tool_calls with
      | [] => (hist, "I need to look up some information but encountered an issue. Please try rephrasing your question.")
      | tc :: tcs =>
          let calls := tc :: tcs
          let hist1 := hist ++ [assistant_tool_msg choice.message.content calls]
          let results := calls.map (execute_tool_call fs)
          (hist1 ++ calls.map (tool_message fs), String.intercalate "\n" results)

/-! ### Conversation Orchestrator state -/

/-- The fixed system prompt `Prompt.SYSTEM_PROMPT` (`src/prompt.py`). -/
def SYSTEM_PROMPT : String :=
  String.intercalate "\n" [
    "You are a helpful, friendly Employee Onboarding Assistant for new hires at a tech company. ",
    "Your primary goal is to help new employees navigate their first weeks by providing accurate information about teams, processes, and technology.",
    "",
    "## Core Responsibilities",
    "You assist with onboarding-related questions in these key areas:",
    "",
    "### 🏢 People & Organization",
    "- Team structures, member roles, and contact information",
    "- Project assignments and reporting relationships  ",
    "- Department functions and organizational hierarchy",
    "",
    "### ⚙️ Processes & Workflows",
    "- Development methodologies (Agile, Scrum, Kanban)",
    "- Code review, testing, and deployment processes",
    "- Documentation standards and quality assurance",
    "",
    "### 💻 Technology & Projects",
    "- Project descriptions, objectives, and current status",
    "- Technology stacks per project (frontend, backend, databases, tools)",
    "- Development environments and learning resources",
    "",
    "### 📋 General Company Information",
    "- Company policies and procedures",
    "- Onboarding checklists and required documentation",
    "- Office logistics and remote work guidelines",
    "",
    "## Response Guidelines",
    "",
    "### Communication Style",
    "- **Tone**: Warm, professional, and encouraging",
    "- **Language**: Clear and jargon-free, appropriate for new employees",
    "- **Structure**: Use bullet points, numbered lists, and clear headings",
    "- **Empathy**: Acknowledge that onboarding can be overwhelming",
    "",
    "### Information Retrieval Strategy",
    "**ALWAYS use function calls for these topics:**",
    "- Team member information → `get_member_information()`",
    "- Company processes → `get_process_information()` ",
    "- Technology stacks → `get_techstack_information()`",
    "- User project assignments → `get_user_project_assignment(user_name)`",
    "",
    "**Answer directly for general topics:**",
    "- Company culture and values",
    "- General onboarding advice",
    "- Industry best practices",
    "- Common workplace etiquette",
    "",
    "### Question Handling Approach",
    "",
    "#### Specific Questions → Direct Answers",
    "✅ \"Who is the team lead for Project AIAE001?\"",
    "- Use `get_member_information()` and filter results",
    "",
    "#### Vague Questions → Clarification + Options",
    "❓ \"What's our tech stack?\"",
    "- Response: \"Which project's tech stack are you interested in? We have [Project A], [Project B], [Project C].\"",
    "",
    "#### Multi-part Questions → Systematic Breakdown",
    "🔄 \"Who's on my team and what tools do we use?\"",
    "- Step 1: Identify user's project assignment",
    "- Step 2: Get team member information",
    "- Step 3: Get technology stack information",
    "",
    "#### User Context Integration",
    "- If user provided name/department during setup, use it for personalized responses",
    "- Always attempt to find user's specific project assignment when relevant",
    "- Provide context-aware suggestions based on user's role/department",
    "",
    "### Error Handling & Boundaries",
    "",
    "#### When Information is Missing",
    "- \"I don't have that specific information in my current database.\"",
    "- \"Let me help you find who can answer that question.\"",
    "- Provide alternative resources or contacts",
    "",
    "#### Out-of-scope Topics (redirect politely)",
    "- **HR/Payroll**: \"For salary, benefits, or payroll questions, please contact HR at hr@company.com\"",
    "- **IT Support**: \"For technical hardware or system issues, please contact IT Support\"",
    "- **Performance/Legal**: \"Please discuss with your manager or HR for performance-related matters\"",
    "",
    "#### Response Template for Redirects:",
    "\"I focus on onboarding and team information, but for [specific issue], you'll want to contact [department/person]. Is there anything onboarding-related I can help with instead?\"",
    "",
    "### Quality Assurance",
    "",
    "#### Before Responding, Ensure:",
    "1. ✅ Information is current and accurate",
    "2. ✅ Response directly addresses the question",
    "3. ✅ Tone is appropriate for new employee experience",
    "4. ✅ Next steps or follow-up resources are provided when helpful",
    "",
    "#### Response Structure Template:",
    "```",
    "[Direct Answer]",
    "",
    "[Detailed Information if needed]",
    "",
    "[Next Steps/Additional Resources]",
    "",
    "[Encouraging closing]",
    "```",
    "",
    "## Success Metrics",
    "- New employees feel welcomed and informed",
    "- Questions resolved efficiently with minimal back-and-forth  ",
    "- Users successfully directed to appropriate resources",
    "- Onboarding confidence and satisfaction improved",
    "",
    "Remember: You're often the first point of contact for new employees. Make their experience positive and set them up for success!",
    ""]

/-- The fixed few-shot example block `Prompt.FEW_SHOT_EXAMPLES` (`src/prompt.py`). -/
def FEW_SHOT_EXAMPLES : List Msg := [
  { role := .user, content := some "How many people are in the Software Engineer team?" },
  { role := .assistant, content := some "Let me check our team for you.\n\n[Function call to get_member_information()]\n\nBased on our current team structure, the Software Engineer team has 6 active members across our projects. Would you like me to provide their names and contact information?" },
  { role := .user, content := some "Can you list all members in the Software Engineer team?" },
  { role := .assistant, content := some "Absolutely! Here are all the Software Engineers currently on our team:\n\n**Software Engineer Team (6 members):**\n• Cuong Nguyen Kien - CuongNK21@fpt.com\n• Giang Le Huynh - GiangLH7@fpt.com  \n• Hung Trieu Quoc - HungTQ26@fpt.com\n• Huy Lu Gia - HuyLG11@fpt.com\n• Nam Vu Son - NamVS@fpt.com\n• Ty Huynh Phu - TyHP@fpt.com\n\nAll of them are working on project AIAE001. Is there anyone specific you'd like to know more about or connect with?" },
  { role := .user, content := some "What is Cuong Nguyen Kien's role?" },
  { role := .assistant, content := some "Cuong Nguyen Kien is a **Software Engineer** working on project AIAE001. You can reach him at CuongNK21@fpt.com if you need to connect with him about technical matters or project collaboration." },
  { role := .user, content := some "Could you tell me what Ty Huynh Phu does?" },
  { role := .assistant, content := some "Ty Huynh Phu is a **Software Engineer** on project AIAE001. He's part of our core development team and can be contacted at TyHP@fpt.com for any engineering-related questions or collaboration." },
  { role := .user, content := some "What is the process for code review?" },
  { role := .assistant, content := some "Great question! Here's our standard code review process:\n\n**📝 Code Review Workflow:**\n1. **Submit Pull Request** - Create a PR with your changes and clear description\n2. **Assign Reviewers** - Add at least 2 team members as reviewers\n3. **Address Feedback** - Respond to comments and make requested changes\n4. **Get Approval** - Ensure all reviewers approve before merging\n5. **Merge & Deploy** - Merge to main branch following our deployment process\n\n**💡 Pro Tips:**\n• Keep PRs focused and reasonably sized\n• Write clear commit messages and PR descriptions\n• Test your changes before requesting review\n\nWould you like more details about any specific step in this process?" },
  { role := .user, content := some "What tech stack do we use?" },
  { role := .assistant, content := some "I'd be happy to help you understand our technology stack! Since we have multiple projects, could you let me know which project you're interested in?\n\n**Current Active Projects:**\n• **AIAE001** - AI Application Engineering project\n• **[Other projects available in system]**\n\nOr if you're not sure which project you'll be working on, I can look up your specific assignment. What's your name and department?" },
  { role := .user, content := some "I don't know what project I'm assigned to" },
  { role := .assistant, content := some "No problem! Let me help you find your project assignment. Could you please provide me with your full name? I'll look it up in our project.\n\nAlternatively, if you know your department (Engineering, Product, Design, etc.), that can help narrow down the search." },
  { role := .user, content := some "What project am I joining?" },
  { role := .assistant, content := some "I'd be happy to look up your project assignment! To find the most accurate information, could you please tell me your full name as it appears in our system?\n\nOnce I have that, I can provide you with:\n• Your specific project details\n• Team members you'll be working with\n• Technology stack for your project\n• Your reporting structure" },
  { role := .user, content := some "Which project do I work on?" },
  { role := .assistant, content := some "[After function call with user name]\n\nBased on your profile, you're assigned to the **Customer Portal Redesign** project (PROJ002) in the Engineering department.\n\n**📋 Your Project Details:**\n• **Project**: Customer Portal Redesign (PROJ002)\n• **Department**: Engineering  \n• **Your Role**: Frontend Developer\n• **Team**: Engineering Team 1\n• **Manager**: Parker Brown\n• **Status**: Active\n\n**🎯 Next Steps:**\n• Connect with your manager Parker Brown\n• Join the team Slack channel\n• Review the project documentation\n\nWould you like me to provide information about your team members or the technology stack you'll be using?" },
  { role := .user, content := some "I can't find my project assignment" },
  { role := .assistant, content := some "I understand that can be frustrating! Let me help you resolve this. \n\n**Let's try a few approaches:**\n\n1. **Name Verification**: Could you provide your full name exactly as it appears in company records?\n\n2. **Department Check**: What department are you joining? (Engineering, Product, Design, etc.)\n\n3. **Recent Hire**: If you're very new, your assignment might not be in the system yet.\n\n**If I still can't find your assignment:**\n• Contact your hiring manager or recruiter\n• Reach out to HR at hr@company.com\n• Check your offer letter for project details\n\nDon't worry - this happens sometimes with new hires, and we'll get it sorted out quickly! 😊" },
  { role := .user, content := some "How much vacation time do I get?" },
  { role := .assistant, content := some "I focus on onboarding and team information, but for specific questions about vacation time, benefits, and HR policies, you'll want to contact HR directly at hr@company.com. They'll have all the details about your specific benefits package.\n\nIs there anything onboarding-related I can help with instead? I can tell you about your team, projects, or our development processes!" },
  { role := .user, content := some "My laptop isn't working properly" },
  { role := .assistant, content := some "I focus on onboarding topics, but for technical hardware or system issues, please contact our IT Support team. They'll be able to help you resolve any laptop or technical problems quickly.\n\nIn the meantime, is there anything about your team structure, project assignment, or development processes I can help you with?" }]

/-! ### Transcript log and orchestrator state
(`OnboardingAssistant`, `src/chatbot.py:468-819`) -/

/-- One line of the transcript file: either a `[timestamp] [sessionId]
role: content` entry (timestamp and session id abstracted away) or the
marker written by `clear_conversation_history`. -/
inductive Entry where
  | line (role : String) (content : String)
  | clearMarker
deriving Repr, DecidableEq

/-- In-memory state of one `OnboardingAssistant`: the conversation history
and the transcript file (`none` = file absent). -/
structure AState where
  history : List Msg
  transcript : Option (List Entry)

/-- Embedding of `save_conversation_history` (`src/chatbot.py:547-560`):
append one line, creating the file when absent. -/
def save_conversation_history (t : Option (List Entry)) (role content : String) :
    Option (List Entry) :=
  some (t.getD [] ++ [Entry.line role content])

/-- Embedding of `clear_conversation_history` (`src/chatbot.py:562-571`):
truncate an existing file to the single marker line; an absent file is
left absent. -/
def clear_conversation_history (t : Option (List Entry)) : Option (List Entry) :=
  t.map (fun _ => [Entry.clearMarker])

/-- The initial system message of every fresh conversation. -/
def system_message : Msg :=
  { role := .system, content := some SYSTEM_PROMPT }

/-- Embedding of `reset_conversation` (`src/chatbot.py:587-596`): replace
the history with the system message followed by the fixed few-shot block,
and clear the transcript file. -/
def reset_conversation (st : AState) : AState :=
  { history := system_message :: FEW_SHOT_EXAMPLES,
    transcript := clear_conversation_history st.transcript }

/-- Embedding of `_validate_input` (`src/chatbot.py:598-614`): returns
`(is_valid, error_message)`. -/
def validate_input (user_message : String) : Bool × String :=
  if user_message = "" then
    (false, "Please enter a message.")
  else
    let message := pyStrip user_message
    if message = "" then
      (false, "Please enter a non-empty message.")
    else if message.length > 5000 then
      (false, "Message is too long. Please keep it under 5000 characters.")
    else if newlineCount message > 50 then
      (false, "Message has too many line breaks. Please format it more concisely.")
    else
      (true, "")

/-- One turn's interaction with the completion endpoint: the outcome of
the initial `get_chat_completion` call, the outcome of the follow-up call
made by `_get_final_response`, and the filesystem the dispatched tools
read.  `none` models the client returning `None` after exhausting its
retries. -/
structure Env where
  first : Option Response
  second : Option Response
  fs : FS

/-- Embedding of `_get_final_response` (`src/chatbot.py:704-741`): make
the follow-up completion call; on a usable non-empty content, append it as
the assistant message and return it, otherwise fall back to surfacing the
content of the last `tool` message of the history (without appending
anything). -/
def get_final_response (env : Env) (st : AState) : AState × String :=
  match env.second with
  | some r =>
      match first_content r with
      | some content =>
          if content ≠ "" then
            ({ st with history := st.history ++ [{ role := .assistant, content := some content }] },
             content)
          else
            get_final_fallback st
      | none => get_final_fallback st
  | none => get_final_fallback st
where
  /-- The fallback of `_get_final_response`: surface the last tool result
  verbatim when one with truthy content exists, else a canned message. -/
  get_final_fallback (st : AState) : AState × String :=
    match st.history.reverse.find? (fun m => m.role == Role.tool) with
    | some m =>
        match m.content with
        | some c =>
            if c ≠ "" then
              (st, "I've retrieved the information you requested. Here are the details:\n\n" ++ c)
            else
              (st, "I've looked up the information but couldn't format a proper response. Please try rephrasing your question.")
        | none =>
            (st, "I've looked up the information but couldn't format a proper response. Please try rephrasing your question.")
    | none =>
        (st, "I've looked up the information but couldn't format a proper response. Please try rephrasing your question.")

/-- Embedding of the private `__send_message` (`src/chatbot.py:756-819`).
The returned `Nat` counts completion-endpoint calls made during the turn.
The `tenacity` retry decorator never fires because the body catches every
exception; the `except` clauses are unreachable in the model because the
modelled body is total. -/
def send_message_core (env : Env) (st : AState) (user_message : String) :
    AState × String × Nat :=
  let v := validate_input user_message
  if !v.1 then
    (st, v.2, 0)
  else
    let hist1 := st.history ++ [{ role := .user, content := some (pyStrip user_message) }]
    match env.first with
    | none =>
        -- rollback: `self.conversation_history.pop()` removes the user message
        (st, "I'm having trouble connecting to my knowledge base right now. Please try again in a few moments.", 1)
    | some resp =>
        if first_tool_calls resp ≠ [] then
          let handled := handle_tool_calls env.fs resp hist1
          let final := get_final_response env { st with history := handled.1 }
          (final.1, final.2, 2)
        else
          match first_content resp with
          | some content =>
              if content ≠ "" then
                ({ st with history := hist1 ++ [{ role := .assistant, content := some content }] },
                 content, 1)
              else
                (st, "I didn't receive a proper response. Please try rephrasing your question.", 1)
          | none =>
              (st, "I didn't receive a proper response. Please try rephrasing your question.", 1)

/-- Embedding of the public `send_message` (`src/chatbot.py:743-753`):
log the raw user text to the transcript, run the internal turn, log the
returned response, return it. -/
def send_message (env : Env) (st : AState) (user_message : String) :
    AState × String × Nat :=
  let st1 : AState := { st with transcript := save_conversation_history st.transcript "user" user_message }
  let r := send_message_core env st1 user_message
  ({ r.1 with transcript := save_conversation_history r.1.transcript "assistant" r.2.1 },
   r.2.1, r.2.2)

/-! ### Derived notions used by the theorems -/

/-- The role of the last message of a history, if any. -/
def lastRole (h : List Msg) : Option Role :=
  h.getLast?.map Msg.role

/-- Whether the environment's initial completion response sends the turn
into the tool-call branch (`response.choices and
response.choices[0].message.tool_calls` truthy). -/
def env_tool_branch (env : Env) : Bool :=
  match env.first with
  | some r => !(first_tool_calls r).isEmpty
  | none => false

/-- Whether the environment's follow-up completion response carries a
usable non-empty content. -/
def env_follow_up_ok (env : Env) : Bool :=
  match env.second with
  | some r =>
      match first_content r with
      | some c => c ≠ ""
      | none => false
  | none => false

lemma lastRole_concat (h : List Msg) (m : Msg) : lastRole (h ++ [m]) = some m.role := by
  simp [lastRole]

lemma lastRole_append_cons (h : List Msg) (m : Msg) (t : List Msg) :
    lastRole (h ++ m :: t) = lastRole (m :: t) := by
  unfold lastRole
  rw [List.getLast?_append_of_ne_nil h (by simp : m :: t ≠ [])]

lemma toolMsgs_lastRole (fs : FS) (tc : ToolCall) (tcs : List ToolCall) :
    lastRole ((tc :: tcs).map (tool_message fs)) = some Role.tool := by
  induction tcs generalizing tc with
  | nil => rfl
  | cons tc' tcs ih =>
      unfold lastRole at ih ⊢
      rw [List.map_cons, List.map_cons, List.getLast?_cons_cons, ← List.map_cons]
      exact ih tc'

/-! ### Claim theorems -/

/-- C1: whenever the dispatcher handles a completion response containing a
non-empty list of tool calls, the new history is the old one followed by
exactly one assistant message carrying the full tool-call list and then
exactly one `tool`-role message per call, in issue order, whose
`tool_call_id`s match the assistant message's tool-call ids in order. -/
theorem handle_tool_calls_protocol (fs : FS) (resp : Response) (hist : List Msg)
    (choice : Choice) (rest : List Choice)
    (hc : resp.choices = choice :: rest)
    (hne : choice.message.tool_calls ≠ []) :
    (handle_tool_calls fs resp hist).1 =
      hist ++ assistant_tool_msg choice.message.content choice.message.tool_calls
        :: choice.message.tool_calls.map (tool_message fs) ∧
    (assistant_tool_msg choice.message.content choice.message.tool_calls).role = Role.assistant ∧
    (assistant_tool_msg choice.message.content choice.message.tool_calls).tool_calls
      = choice.message.tool_calls ∧
    (choice.message.tool_calls.map (tool_message fs)).length
      = choice.message.tool_calls.length ∧
    (∀ m ∈ choice.message.tool_calls.map (tool_message fs), m.role = Role.tool) ∧
    (choice.message.tool_calls.map (tool_message fs)).map Msg.tool_call_id
      = choice.message.tool_calls.map (fun tc => some tc.id) := by
  obtain ⟨tc, tcs, htcs⟩ : ∃ tc tcs, choice.message.tool_calls = tc :: tcs := by
    cases h : choice.message.tool_calls with
    | nil => exact absurd h hne
    | cons a b => exact ⟨a, b, rfl⟩
  refine ⟨?_, rfl, rfl, by simp, ?_, ?_⟩
  · unfold handle_tool_calls
    rw [hc]
    simp [htcs]
  · intro m hm
    rw [List.mem_map] at hm
    obtain ⟨tc', _, rfl⟩ := hm
    rfl
  · rw [List.map_map]
    rfl

/-- Concrete first choice used to witness C1. -/
def c1Choice : Choice :=
  ⟨⟨none, [⟨"call_a", ⟨"get_member_information", ""⟩⟩,
           ⟨"call_b", ⟨"get_process_information", ""⟩⟩]⟩⟩

/-- Concrete response used to witness C1. -/
def c1Resp : Response := ⟨[c1Choice]⟩

/-- Concrete filesystem used to witness C1. -/
def c1FS : FS := ⟨⟨false, true, none⟩, ⟨false, true, none⟩, ⟨false, true, none⟩⟩

/-- Witness for C1 at a concrete two-call response. -/
theorem handle_tool_calls_protocol_witness :
    (handle_tool_calls c1FS c1Resp []).1 =
      [] ++ assistant_tool_msg c1Choice.message.content c1Choice.message.tool_calls
        :: c1Choice.message.tool_calls.map (tool_message c1FS) :=
  (handle_tool_calls_protocol c1FS c1Resp [] c1Choice [] rfl (by decide)).1

/-- C3: when the Completion Client returns `None` on a valid input, the
history after `send_message` is exactly the history before the call (the
just-appended user message removed, so in particular the lengths agree)
and the returned text is the fixed trouble-connecting message. -/
theorem send_message_null_rollback (env : Env) (st : AState) (msg : String)
    (hv : (validate_input msg).1 = true)
    (hn : env.first = none) :
    (send_message env st msg).1.history = st.history ∧
    (send_message env st msg).1.history.length = st.history.length ∧
    (send_message env st msg).2.1 =
      "I'm having trouble connecting to my knowledge base right now. Please try again in a few moments." := by
  simp only [send_message, send_message_core, hn, hv]
  simp

/-- Witness for C3 at a concrete input and environment. -/
theorem send_message_null_rollback_witness :
    (send_message ⟨none, none, c1FS⟩ ⟨[], none⟩ "hello").1.history = [] ∧
    (send_message ⟨none, none, c1FS⟩ ⟨[], none⟩ "hello").1.history.length = ([] : List Msg).length ∧
    (send_message ⟨none, none, c1FS⟩ ⟨[], none⟩ "hello").2.1 =
      "I'm having trouble connecting to my knowledge base right now. Please try again in a few moments." :=
  send_message_null_rollback ⟨none, none, c1FS⟩ ⟨[], none⟩ "hello" (by decide) rfl

/-- C6: a dispatched tool call whose arguments string is present but does
not decode as JSON is executed exactly as the mapped function invoked
with no arguments (the per-call exception wrapper turning a raised
`TypeError` into the structured failure payload); the call is not
aborted. -/
theorem execute_tool_call_decode_fallback (fs : FS) (tc : ToolCall)
    (hreg : tc.function.name ∈ function_map_names)
    (hargs : tc.function.arguments ≠ "")
    (hdec : json_loads tc.function.arguments = none) :
    execute_tool_call fs tc =
      match invoke_no_args fs tc.function.name with
      | .ok r => r
      | .error _ => Json.dumps (exec_failed_payload tc.function.name) := by
  unfold execute_tool_call
  rw [if_pos hreg, if_pos hargs, hdec]

/-- Witness for C6: malformed arguments on `get_member_information`. -/
theorem execute_tool_call_decode_fallback_witness :
    execute_tool_call c1FS ⟨"call_x", ⟨"get_member_information", "not valid json"⟩⟩ =
      match invoke_no_args c1FS "get_member_information" with
      | .ok r => r
      | .error _ => Json.dumps (exec_failed_payload "get_member_information") :=
  execute_tool_call_decode_fallback c1FS
    ⟨"call_x", ⟨"get_member_information", "not valid json"⟩⟩
    (by decide) (by decide) rfl

/-- C8: `reset_conversation` is idempotent on the history — two calls in
a row yield the same history, namely exactly the system message followed
by the fixed few-shot block — and each call truncates an existing
transcript file to the clear marker. -/
theorem reset_conversation_idempotent (st : AState) :
    (reset_conversation (reset_conversation st)).history = (reset_conversation st).history ∧
    (reset_conversation st).history = system_message :: FEW_SHOT_EXAMPLES ∧
    (reset_conversation st).transcript = st.transcript.map (fun _ => [Entry.clearMarker]) ∧
    (reset_conversation (reset_conversation st)).transcript
      = (reset_conversation st).transcript.map (fun _ => [Entry.clearMarker]) :=
  ⟨rfl, rfl, rfl, rfl⟩

/-- C9: an input whose stripped text is non-empty, within the 5000
character ceiling, but with more than 50 newline characters is rejected
with the fixed line-break guidance string, with no history mutation and
no completion-endpoint call. -/
theorem send_message_too_many_newlines (env : Env) (st : AState) (msg : String)
    (h1 : pyStrip msg ≠ "")
    (h2 : (pyStrip msg).length ≤ 5000)
    (h3 : newlineCount (pyStrip msg) > 50) :
    (send_message env st msg).2.1 =
      "Message has too many line breaks. Please format it more concisely." ∧
    (send_message env st msg).1.history = st.history ∧
    (send_message env st msg).2.2 = 0 := by
  have hmsg : msg ≠ "" := by
    intro h
    exact h1 (by rw [h]; rfl)
  have hval : validate_input msg =
      (false, "Message has too many line breaks. Please format it more concisely.") := by
    unfold validate_input
    rw [if_neg hmsg, if_neg h1, if_neg (by omega : ¬ (pyStrip msg).length > 5000),
      if_pos h3]
  simp only [send_message, send_message_core, hval]
  simp

/-- Concrete 51-newline message used to witness C9. -/
def c9Msg : String := String.intercalate "\n" (List.replicate 52 "a")

set_option maxRecDepth 4000 in
/-- Witness for C9 at a 103-character message with 51 newlines. -/
theorem send_message_too_many_newlines_witness :
    (send_message ⟨none, none, c1FS⟩ ⟨[], none⟩ c9Msg).2.1 =
      "Message has too many line breaks. Please format it more concisely." ∧
    (send_message ⟨none, none, c1FS⟩ ⟨[], none⟩ c9Msg).1.history = [] ∧
    (send_message ⟨none, none, c1FS⟩ ⟨[], none⟩ c9Msg).2.2 = 0 :=
  send_message_too_many_newlines ⟨none, none, c1FS⟩ ⟨[], none⟩ c9Msg
    (by decide) (by decide) (by decide)

/-- C5: `get_member_information` never throws (it is a total function
into payloads); on a missing file, a permission error, or malformed JSON
it returns the corresponding error object, each carrying `error`,
`message` and `contact` keys, with a distinct message per error kind. -/
theorem get_member_information_error_contract (fs₁ fs₂ fs₃ : FS)
    (h₁ : fs₁.member.pathExists = false)
    (h₂ : fs₂.member.pathExists = true ∧ fs₂.member.readable = false)
    (h₃ : fs₃.member.pathExists = true ∧ fs₃.member.readable = true ∧
          fs₃.member.parsed = none) :
    get_member_information fs₁ = member_missing_payload ∧
    get_member_information fs₂ = member_access_payload ∧
    get_member_information fs₃ = member_format_payload ∧
    (∀ p ∈ [member_missing_payload, member_access_payload, member_format_payload],
      (p.get? "error").isSome ∧ (p.get? "message").isSome ∧ (p.get? "contact").isSome) ∧
    member_missing_payload.get? "message" ≠ member_access_payload.get? "message" ∧
    member_missing_payload.get? "message" ≠ member_format_payload.get? "message" ∧
    member_access_payload.get? "message" ≠ member_format_payload.get? "message" := by
  obtain ⟨h₂a, h₂b⟩ := h₂
  obtain ⟨h₃a, h₃b, h₃c⟩ := h₃
  refine ⟨?_, ?_, ?_, ?_, ?_, ?_, ?_⟩
  · simp [get_member_information, h₁]
  · simp [get_member_information, h₂a, h₂b]
  · simp [get_member_information, h₃a, h₃b, h₃c]
  · intro p hp
    simp only [List.mem_cons, List.not_mem_nil, or_false] at hp
    rcases hp with rfl | rfl | rfl <;>
      simp [member_missing_payload, member_access_payload, member_format_payload, Json.get?]
  · simp [member_missing_payload, member_access_payload, Json.get?]
  · simp [member_missing_payload, member_format_payload, Json.get?]
  · simp [member_access_payload, member_format_payload, Json.get?]

/-- Filesystem with an unreadable member file, witnessing C5. -/
def c5Unreadable : FS := ⟨⟨true, false, none⟩, ⟨true, true, none⟩, ⟨true, true, none⟩⟩

/-- Filesystem whose member file holds malformed JSON, witnessing C5. -/
def c5Malformed : FS := ⟨⟨true, true, none⟩, ⟨true, true, none⟩, ⟨true, true, none⟩⟩

/-- Witness for C5 at the three concrete failing filesystems. -/
theorem get_member_information_error_contract_witness :
    get_member_information c1FS = member_missing_payload ∧
    get_member_information c5Unreadable = member_access_payload ∧
    get_member_information c5Malformed = member_format_payload :=
  ⟨(get_member_information_error_contract c1FS c5Unreadable c5Malformed rfl
      ⟨rfl, rfl⟩ ⟨rfl, rfl, rfl⟩).1,
   (get_member_information_error_contract c1FS c5Unreadable c5Malformed rfl
      ⟨rfl, rfl⟩ ⟨rfl, rfl, rfl⟩).2.1,
   (get_member_information_error_contract c1FS c5Unreadable c5Malformed rfl
      ⟨rfl, rfl⟩ ⟨rfl, rfl, rfl⟩).2.2.1⟩

/-- C7: a valid (non-empty after stripping) name that matches no member
record of an existing, readable, well-formed knowledge file yields the
no-match payload: `user_found` is `false` and the `suggestions` list is
non-empty. -/
theorem get_user_project_assignment_no_match (fs : FS) (user_name : String)
    (dept : Json) (data : Json)
    (hname : pyStrip user_name ≠ "")
    (hexists : fs.member.pathExists = true)
    (hread : fs.member.readable = true)
    (hparsed : fs.member.parsed = some data)
    (hnomatch : user_projects_for data (search_variations (pyStrip user_name)) dept = .ok []) :
    get_user_project_assignment fs (.str user_name) dept = no_match_payload (pyStrip user_name) ∧
    (no_match_payload (pyStrip user_name)).get? "user_found" = some (.bool false) ∧
    ∃ l, (no_match_payload (pyStrip user_name)).get? "suggestions" = some (.arr l) ∧ l ≠ [] := by
  have huser : user_name ≠ "" := fun h => hname (by rw [h]; rfl)
  refine ⟨?_, ?_, ?_⟩
  · simp [get_user_project_assignment, pyTruthy, huser, hname, hexists, hread, hparsed,
      hnomatch]
  · simp [no_match_payload, Json.get?]
  · exact ⟨[.str "Check if your name is spelled exactly as in company records",
            .str "Try using just your first name",
            .str "Contact HR if you're a very recent hire",
            .str "Verify with your hiring manager about project assignments"],
           by simp [no_match_payload, Json.get?], by simp⟩

/-- Concrete member-file content used to witness C7. -/
def c7Data : Json :=
  .arr [.obj [("project_code", .str "AIAE001"),
              ("project_name", .str "AI Application Engineering"),
              ("members", .arr [.obj [("name", .str "Nam Vu Son"),
                                      ("role", .str "Software Engineer")]])]]

/-- Filesystem holding the C7 fixture. -/
def c7FS : FS := ⟨⟨true, true, some c7Data⟩, ⟨false, true, none⟩, ⟨false, true, none⟩⟩

set_option maxRecDepth 4000 in
/-- Witness for C7: the name `NoSuchPerson` against the fixture. -/
theorem get_user_project_assignment_no_match_witness :
    get_user_project_assignment c7FS (.str "NoSuchPerson") .null =
      no_match_payload (pyStrip "NoSuchPerson") ∧
    (no_match_payload (pyStrip "NoSuchPerson")).get? "user_found" = some (.bool false) ∧
    ∃ l, (no_match_payload (pyStrip "NoSuchPerson")).get? "suggestions" = some (.arr l) ∧
      l ≠ [] :=
  get_user_project_assignment_no_match c7FS "NoSuchPerson" .null c7Data
    (by decide) rfl rfl rfl (by decide)

lemma mem_missing_configs (cfg : ClientConfig) (k : String) (v : Option String)
    (hkv : (k, v) ∈ required_configs cfg) (hv : cfgTruthy v = false) :
    k ∈ missing_configs cfg := by
  unfold missing_configs
  exact List.mem_map_of_mem _ (List.mem_filter.mpr ⟨hkv, by simp [hv]⟩)

/-- C4: the client singleton is validated eagerly at construction: with
any of endpoint, API key, or deployment name missing, `get_instance`
raises a configuration error whose message lists exactly the missing
value names, and no client object is created; and it is a create-once
singleton — an existing instance is returned unchanged with no further
validation or construction. -/
theorem get_instance_eager_validation (cfg : ClientConfig)
    (h : cfgTruthy cfg.endpoint = false ∨ cfgTruthy cfg.apiKey = false ∨
         cfgTruthy cfg.deploymentName = false) :
    get_instance cfg none =
      (.error ("Missing Azure OpenAI configuration: " ++
        String.intercalate ", " (missing_configs cfg)), none) ∧
    (cfgTruthy cfg.endpoint = false → "OPENAI_ENDPOINT" ∈ missing_configs cfg) ∧
    (cfgTruthy cfg.apiKey = false → "OPENAI_API_KEY" ∈ missing_configs cfg) ∧
    (cfgTruthy cfg.deploymentName = false →
      "OPENAI_DEPLOYMENT_NAME" ∈ missing_configs cfg) ∧
    (∀ c, get_instance cfg (some c) = (.ok c, some c)) := by
  have hne : missing_configs cfg ≠ [] := by
    rcases h with he | hk | hd
    · exact List.ne_nil_of_mem
        (mem_missing_configs cfg "OPENAI_ENDPOINT" cfg.endpoint (by simp [required_configs]) he)
    · exact List.ne_nil_of_mem
        (mem_missing_configs cfg "OPENAI_API_KEY" cfg.apiKey (by simp [required_configs]) hk)
    · exact List.ne_nil_of_mem
        (mem_missing_configs cfg "OPENAI_DEPLOYMENT_NAME" cfg.deploymentName
          (by simp [required_configs]) hd)
  refine ⟨?_, ?_, ?_, ?_, fun c => rfl⟩
  · have hie : (missing_configs cfg).isEmpty = false := by
      cases hmc : (missing_configs cfg).isEmpty
      · rfl
      · exact absurd (List.isEmpty_iff.mp hmc) hne
    simp only [get_instance, hie]
    simp
  · exact fun he =>
      mem_missing_configs cfg "OPENAI_ENDPOINT" cfg.endpoint (by simp [required_configs]) he
  · exact fun hk =>
      mem_missing_configs cfg "OPENAI_API_KEY" cfg.apiKey (by simp [required_configs]) hk
  · exact fun hd =>
      mem_missing_configs cfg "OPENAI_DEPLOYMENT_NAME" cfg.deploymentName
        (by simp [required_configs]) hd

/-- Configuration with a missing endpoint, witnessing C4. -/
def c4Cfg : ClientConfig := ⟨none, some "key", some "2024-02-01", some "gpt-4o"⟩

/-- Witness for C4: a configuration with no endpoint fails at
construction, naming `OPENAI_ENDPOINT`. -/
theorem get_instance_eager_validation_witness :
    get_instance c4Cfg none =
      (.error ("Missing Azure OpenAI configuration: " ++
        String.intercalate ", " (missing_configs c4Cfg)), none) ∧
    "OPENAI_ENDPOINT" ∈ missing_configs c4Cfg :=
  ⟨(get_instance_eager_validation c4Cfg (Or.inl rfl)).1,
   (get_instance_eager_validation c4Cfg (Or.inl rfl)).2.1 rfl⟩

lemma get_final_fallback_fst (st : AState) :
    (get_final_response.get_final_fallback st).1 = st := by
  unfold get_final_response.get_final_fallback
  split
  · split
    · split <;> rfl
    · rfl
  · rfl

lemma get_final_response_transcript (env : Env) (st : AState) :
    (get_final_response env st).1.transcript = st.transcript := by
  unfold get_final_response
  split
  · split
    · split
      · rfl
      · rw [get_final_fallback_fst]
    · rw [get_final_fallback_fst]
  · rw [get_final_fallback_fst]

lemma send_message_core_transcript (env : Env) (st : AState) (msg : String) :
    (send_message_core env st msg).1.transcript = st.transcript := by
  simp only [send_message_core]
  split
  · rfl
  · split
    · rfl
    · split
      · exact get_final_response_transcript env _
      · split
        · split <;> rfl
        · rfl

/-- C10: `send_message` logs the raw user text to the transcript before
validation and the returned response after it — for every input,
including invalid ones, exactly the user entry and the response entry are
appended to the transcript, while a rejected input leaves the in-memory
history untouched. -/
theorem send_message_transcript_frame (env : Env) (st : AState) (msg : String) :
    (send_message env st msg).1.transcript =
      some (st.transcript.getD [] ++
        [Entry.line "user" msg, Entry.line "assistant" (send_message env st msg).2.1]) ∧
    ((validate_input msg).1 = false → (send_message env st msg).1.history = st.history) := by
  constructor
  · have hc := send_message_core_transcript env
      { st with transcript := save_conversation_history st.transcript "user" msg } msg
    simp only [send_message]
    rw [hc]
    simp [save_conversation_history]
  · intro hv
    simp only [send_message, send_message_core, hv]
    simp

/-- Witness for C10 at a whitespace-only (rejected) input. -/
theorem send_message_transcript_frame_witness :
    (send_message ⟨none, none, c1FS⟩ ⟨[], some []⟩ "   ").1.transcript =
      some ((some ([] : List Entry)).getD [] ++
        [Entry.line "user" "   ",
         Entry.line "assistant" (send_message ⟨none, none, c1FS⟩ ⟨[], some []⟩ "   ").2.1]) ∧
    (send_message ⟨none, none, c1FS⟩ ⟨[], some []⟩ "   ").1.history = [] :=
  ⟨(send_message_transcript_frame ⟨none, none, c1FS⟩ ⟨[], some []⟩ "   ").1,
   (send_message_transcript_frame ⟨none, none, c1FS⟩ ⟨[], some []⟩ "   ").2 (by decide)⟩

lemma handle_tool_calls_eq (fs : FS) (resp : Response) (hist : List Msg)
    (choice : Choice) (rest : List Choice) (tc : ToolCall) (tcs : List ToolCall)
    (hc : resp.choices = choice :: rest)
    (htcs : choice.message.tool_calls = tc :: tcs) :
    handle_tool_calls fs resp hist =
      (hist ++ assistant_tool_msg choice.message.content (tc :: tcs)
         :: (tc :: tcs).map (tool_message fs),
       String.intercalate "\n" ((tc :: tcs).map (execute_tool_call fs))) := by
  unfold handle_tool_calls
  rw [hc]
  simp [htcs]

lemma get_final_fallback_ne_empty (st : AState) :
    (get_final_response.get_final_fallback st).2 ≠ "" := by
  unfold get_final_response.get_final_fallback
  split
  · split
    · split
      · intro h
        have h2 := congrArg String.length h
        rw [String.length_append] at h2
        have hp :
            0 < ("I've retrieved the information you requested. Here are the details:\n\n").length := by
          decide
        simp at h2
        omega
      · simp
    · simp
  · simp

lemma lastRole_cons_of_ne_nil (m : Msg) (t : List Msg) (ht : t ≠ []) :
    lastRole (m :: t) = lastRole t := by
  unfold lastRole
  have : m :: t = [m] ++ t := rfl
  rw [this, List.getLast?_append_of_ne_nil [m] ht]

lemma get_final_response_fallback_eq (env : Env) (st : AState)
    (h : env_follow_up_ok env = false) :
    get_final_response env st = get_final_response.get_final_fallback st := by
  unfold env_follow_up_ok at h
  unfold get_final_response
  rcases hsec : env.second with _ | r2
  · rfl
  · rw [hsec] at h
    dsimp only at h ⊢
    rcases hfc : first_content r2 with _ | c2
    · rfl
    · rw [hfc] at h
      dsimp only at h ⊢
      have hc2 : c2 = "" := by simpa using h
      have hcond : ¬ (c2 ≠ "") := by simp [hc2]
      rw [if_neg hcond]

lemma get_final_response_ok_eq (env : Env) (st : AState) (r2 : Response) (c2 : String)
    (hsec : env.second = some r2) (hfc : first_content r2 = some c2) (hc : c2 ≠ "") :
    get_final_response env st =
      ({ st with history := st.history ++ [{ role := .assistant, content := some c2 }] },
       c2) := by
  unfold get_final_response
  rw [hsec]
  simp only [hfc]
  rw [if_pos hc]

lemma env_follow_up_ok_of_not_true (env : Env) (h : ¬ env_follow_up_ok env = true) :
    env_follow_up_ok env = false := by
  cases hf : env_follow_up_ok env
  · rfl
  · exact absurd hf h

lemma lastRole_after_dispatch (fs : FS) (hist : List Msg) (content : Option String)
    (tc : ToolCall) (tcs : List ToolCall) :
    lastRole (hist ++ assistant_tool_msg content (tc :: tcs)
      :: (tc :: tcs).map (tool_message fs)) = some Role.tool := by
  rw [lastRole_append_cons,
    lastRole_cons_of_ne_nil _ _ (by simp)]
  exact toolMsgs_lastRole fs tc tcs

lemma env_follow_up_ok_spec (env : Env) (h : env_follow_up_ok env = true) :
    ∃ r2 c2, env.second = some r2 ∧ first_content r2 = some c2 ∧ c2 ≠ "" := by
  unfold env_follow_up_ok at h
  rcases hsec : env.second with _ | r2
  · rw [hsec] at h
    exact absurd h (by simp)
  · rw [hsec] at h
    dsimp only at h
    rcases hfc : first_content r2 with _ | c2
    · rw [hfc] at h
      exact absurd h (by simp)
    · rw [hfc] at h
      dsimp only at h
      exact ⟨r2, c2, rfl, hfc, by simpa using h⟩

lemma core_valid_shape (env : Env) (st : AState) (msg : String)
    (hv : (validate_input msg).1 = true)
    (hl : lastRole st.history = some Role.assistant) :
    (send_message_core env st msg).2.1 ≠ "" ∧
    lastRole (send_message_core env st msg).1.history =
      some (if env_tool_branch env && !env_follow_up_ok env then Role.tool
            else Role.assistant) := by
  rcases henv : env.first with _ | resp
  · have hifR : (if env_tool_branch env && !env_follow_up_ok env then Role.tool
        else Role.assistant) = Role.assistant := by
      simp [env_tool_branch, henv]
    rw [hifR]
    simp only [send_message_core, hv, henv]
    refine ⟨by simp, ?_⟩
    simpa using hl
  · by_cases htc : first_tool_calls resp = []
    · have hifR : (if env_tool_branch env && !env_follow_up_ok env then Role.tool
          else Role.assistant) = Role.assistant := by
        simp [env_tool_branch, henv, htc]
      rw [hifR]
      rcases hfc : first_content resp with _ | c
      · simp only [send_message_core, hv, henv, hfc]
        simp [htc]
        exact hl
      · by_cases hce : c = ""
        · simp only [send_message_core, hv, henv, hfc]
          simp [htc, hce]
          exact hl
        · simp only [send_message_core, hv, henv, hfc]
          have hcond : ¬ (first_tool_calls resp ≠ []) := by simp [htc]
          rw [if_neg hcond, if_pos hce]
          refine ⟨hce, ?_⟩
          show lastRole ((st.history ++
            [{ role := Role.user, content := some (pyStrip msg), tool_calls := [],
               tool_call_id := none }]) ++
            [{ role := Role.assistant, content := some c, tool_calls := [],
               tool_call_id := none }]) = some Role.assistant
          rw [lastRole_concat]
    · obtain ⟨choice, rest, hch⟩ : ∃ choice rest, resp.choices = choice :: rest := by
        cases hh : resp.choices with
        | nil => exact absurd (by simp [first_tool_calls, hh]) htc
        | cons a b => exact ⟨a, b, rfl⟩
      obtain ⟨tc, tcs, htcs⟩ : ∃ tc tcs, choice.message.tool_calls = tc :: tcs := by
        cases hh : choice.message.tool_calls with
        | nil => exact absurd (by simp [first_tool_calls, hch, hh]) htc
        | cons a b => exact ⟨a, b, rfl⟩
      have htb : env_tool_branch env = true := by
        simp [env_tool_branch, henv, first_tool_calls, hch, htcs]
      simp only [send_message_core, hv, henv]
      have hht := fun hist => handle_tool_calls_eq env.fs resp hist choice rest tc tcs hch htcs
      rw [if_pos htc, hht]
      by_cases hfo : env_follow_up_ok env = true
      · obtain ⟨r2, c2, hsec, hfc2, hc2⟩ := env_follow_up_ok_spec env hfo
        rw [get_final_response_ok_eq env _ r2 c2 hsec hfc2 hc2]
        have hifR : (if env_tool_branch env && !env_follow_up_ok env then Role.tool
            else Role.assistant) = Role.assistant := by simp [htb, hfo]
        rw [hifR]
        refine ⟨hc2, ?_⟩
        show lastRole (((st.history ++
          [{ role := Role.user, content := some (pyStrip msg), tool_calls := [],
             tool_call_id := none }]) ++
          assistant_tool_msg choice.message.content (tc :: tcs)
            :: (tc :: tcs).map (tool_message env.fs)) ++
          [{ role := Role.assistant, content := some c2, tool_calls := [],
             tool_call_id := none }]) = some Role.assistant
        rw [lastRole_concat]
      · have hfo2 := env_follow_up_ok_of_not_true env hfo
        rw [get_final_response_fallback_eq env _ hfo2]
        have hifR : (if env_tool_branch env && !env_follow_up_ok env then Role.tool
            else Role.assistant) = Role.tool := by simp [htb, hfo2]
        rw [hifR]
        refine ⟨get_final_fallback_ne_empty _, ?_⟩
        rw [get_final_fallback_fst]
        exact lastRole_after_dispatch env.fs _ choice.message.content tc tcs

/-- C2 (amended): for every valid input and a history currently ending on
an assistant message, `send_message` returns a non-empty string and never
leaves the history on an unpaired user message: it ends on an assistant
message in every branch except the tool-call branch whose follow-up
completion fails or returns empty content, where it ends on the last
appended `tool` message. -/
theorem send_message_valid_turn (env : Env) (st : AState) (msg : String)
    (hv : (validate_input msg).1 = true)
    (hl : lastRole st.history = some Role.assistant) :
    (send_message env st msg).2.1 ≠ "" ∧
    lastRole (send_message env st msg).1.history =
      some (if env_tool_branch env && !env_follow_up_ok env then Role.tool
            else Role.assistant) := by
  have h := core_valid_shape env
    { st with transcript := save_conversation_history st.transcript "user" msg } msg hv hl
  exact h

/-- Response carrying one tool call, used by the C2 counterexample and
witness. -/
def c2ToolResp : Response :=
  ⟨[⟨⟨none, [⟨"call_1", ⟨"get_member_information", ""⟩⟩]⟩⟩]⟩

/-- Initial state whose history ends on an assistant message, used by the
C2 counterexample and witness. -/
def c2St : AState := ⟨[{ role := .assistant, content := some "Welcome!" }], none⟩

/-- Counterexample to C2 as stated: on the valid input shown, with the
first completion returning one tool call and the follow-up completion
failing (client returns `None`), the history after `send_message` does
not end on an assistant-role message — it ends on the tool message. -/
theorem send_message_assistant_tail_cex :
    (validate_input "What is my project?").1 = true ∧
    lastRole c2St.history = some Role.assistant ∧
    lastRole (send_message ⟨some c2ToolResp, none, c1FS⟩ c2St "What is my project?").1.history ≠
      some Role.assistant := by
  refine ⟨by decide, rfl, ?_⟩
  have h := core_valid_shape ⟨some c2ToolResp, none, c1FS⟩
    { c2St with transcript := save_conversation_history c2St.transcript "user" "What is my project?" }
    "What is my project?" (by decide) rfl
  have h2 := h.2
  have hif : (if env_tool_branch ⟨some c2ToolResp, none, c1FS⟩ &&
      !env_follow_up_ok ⟨some c2ToolResp, none, c1FS⟩ then Role.tool
      else Role.assistant) = Role.tool := by decide
  rw [hif] at h2
  have heq : lastRole (send_message ⟨some c2ToolResp, none, c1FS⟩ c2St
        "What is my project?").1.history
      = lastRole (send_message_core ⟨some c2ToolResp, none, c1FS⟩
          { c2St with
            transcript := (save_conversation_history c2St.transcript "user" "What is my project?") }
          "What is my project?").1.history := rfl
  rw [heq, h2]
  decide

/-- Witness for the amended C2 at a concrete direct-answer turn. -/
theorem send_message_valid_turn_witness :
    (send_message ⟨some ⟨[⟨⟨some "direct answer", []⟩⟩]⟩, none, c1FS⟩ c2St "hello").2.1 ≠ "" ∧
    lastRole (send_message ⟨some ⟨[⟨⟨some "direct answer", []⟩⟩]⟩, none, c1FS⟩ c2St "hello").1.history =
      some (if env_tool_branch ⟨some ⟨[⟨⟨some "direct answer", []⟩⟩]⟩, none, c1FS⟩ &&
              !env_follow_up_ok ⟨some ⟨[⟨⟨some "direct answer", []⟩⟩]⟩, none, c1FS⟩
            then Role.tool else Role.assistant) :=
  send_message_valid_turn ⟨some ⟨[⟨⟨some "direct answer", []⟩⟩]⟩, none, c1FS⟩ c2St "hello"
    (by decide) rfl

end Onboard
